import Mathlib

/-!
Shallow embedding of `src/backend/app.py` (face-verification service).

Payload strings are modelled as `List Char`.  External library calls
(`base64.b64decode`, `PIL.Image.open`, `face_recognition.*`) are modelled as
function parameters (the capabilities the code consumes); the code of the
repository itself (comma splitting, control flow, error wrapping, the
matcher's arithmetic, the configuration store, the Flask route logic) is
translated definition by definition.  Floating-point numbers are modelled
as real numbers.
-/

namespace FaceVerification

/-- Python's `str.split(',')` on a list of characters: the maximal
comma-free segments, in order (the library's `List.splitOn`).
`splitComma []` is `[[]]`, matching `"".split(',') == ['']`. -/
def splitComma (l : List Char) : List (List Char) :=
  l.splitOn ','

theorem splitComma_ne_nil (l : List Char) : splitComma l ≠ [] :=
  List.splitOnP_ne_nil _ l

theorem splitComma_of_not_mem {l : List Char} (h : ',' ∉ l) :
    splitComma l = [l] :=
  List.splitOnP_eq_single _ _
    (by intro x hx hq; simp only [beq_iff_eq] at hq; subst hq; exact h hx)

theorem splitComma_append {a : List Char} (rest : List Char) (h : ',' ∉ a) :
    splitComma (a ++ ',' :: rest) = a :: splitComma rest :=
  List.splitOnP_first _ _
    (by intro x hx hq; simp only [beq_iff_eq] at hq; subst hq; exact h hx) ','
    (by simp) rest

/-- The segment of the payload that `base64_to_image` feeds to the base64
decoder (lines 30–31 of `app.py`): if the payload contains a `','`, the
element at index 1 of `payload.split(',')` (in range whenever a comma is
present), otherwise the payload itself. -/
def selected_segment (s : List Char) : List Char :=
  if s.contains ',' then (splitComma s).getD 1 [] else s

/-- Modelled from the spec's reading of the same lines: the segment after
the LAST delimiter, i.e. the last element of the split.  Used only to
compare the spec's wording with what the code computes. -/
def last_segment_spec (s : List Char) : List Char :=
  (splitComma s).getLastD []

/-- A decoded-but-not-yet-normalized image as returned by `Image.open`:
a color mode together with opaque pixel content. -/
structure PILImage (P : Type) where
  mode : String
  content : P

/-- Lines 26–44 of `app.py` (`FaceVerificationSystem.base64_to_image`).
`b64decode`, `imageOpen`, `convertRGB` and `toArray` are the external
library capabilities (`base64.b64decode`, `PIL.Image.open`,
`Image.convert('RGB')`, `np.array`); a raised exception is modelled as
`Except.error`, and the function re-raises every underlying failure as
`Invalid image format: <cause>`. -/
def base64_to_image {B P Img : Type}
    (b64decode : List Char → Except String B)
    (imageOpen : B → Except String (PILImage P))
    (convertRGB : PILImage P → PILImage P)
    (toArray : PILImage P → Img)
    (base64_string : List Char) : Except String Img :=
  let s := selected_segment base64_string
  match b64decode s with
  | .error e => .error ("Invalid image format: " ++ e)
  | .ok image_data =>
    match imageOpen image_data with
    | .error e => .error ("Invalid image format: " ++ e)
    | .ok image =>
      let image := if image.mode ≠ "RGB" then convertRGB image else image
      .ok (toArray image)

/-- A face embedding: the fixed-length real vector produced by
`face_recognition.face_encodings`. -/
abbrev Embedding : Type := List ℝ

noncomputable section

/-- The library call `face_recognition.face_distance([e1], e2)[0]`:
the Euclidean norm of the componentwise difference of the two vectors. -/
def face_distance (e1 e2 : Embedding) : ℝ :=
  Real.sqrt (((e1.zip e2).map fun p => (p.1 - p.2) ^ 2).sum)

/-- The dictionary returned by `compare_faces` (lines 82–86 of `app.py`);
the Python key `match` is the field `matched` here (`match` is reserved). -/
structure MatchResult where
  matched : Bool
  confidence : ℝ
  distance : ℝ

/-- Lines 70–90 of `app.py` (`FaceVerificationSystem.compare_faces`):
distance from the library metric, `confidence = max(0, 1 - face_distance)`,
`is_match = face_distance < self.tolerance`. -/
def compare_faces (tolerance : ℝ) (encoding1 encoding2 : Embedding) :
    MatchResult :=
  let fd := face_distance encoding1 encoding2
  { matched := decide (fd < tolerance)
    confidence := max 0 (1 - fd)
    distance := fd }

end

/-- Lines 46–68 of `app.py` (`detect_and_encode_face`).  `locate` models
`face_recognition.face_locations` and `encodings` models
`face_recognition.face_encodings` (called with the image and ALL located
regions).  The first component of the result is the Python pair
`(encoding, error)`; the second component is the list of messages passed
to `logger.warning` (line 56).  The `except` branch of lines 66–68
(returning `(None, "Face detection error: ...")`) is unreachable here
because the two capabilities are modelled as total functions. -/
def detect_and_encode_face {Img Loc : Type}
    (locate : Img → List Loc)
    (encodings : Img → List Loc → List Embedding)
    (image_array : Img) :
    (Option Embedding × Option String) × List String :=
  let face_locations := locate image_array
  if face_locations.isEmpty then
    ((none, some "No face detected in the image"), [])
  else
    let warnings :=
      if face_locations.length > 1 then
        ["Multiple faces detected, using the first one"]
      else []
    match encodings image_array face_locations with
    | [] => ((none, some "Could not generate face encoding"), warnings)
    | e :: _ => ((some e, none), warnings)

/-- The dictionary returned by `verify_identity` (lines 92–137).  The
Python key `match` is the field `matched`; keys absent from a given
return (`distance`, `timestamp`, `threshold_used` in the failure returns,
`error` in the success return) are `none`. -/
structure VerificationOutcome where
  success : Bool
  matched : Bool
  confidence : ℝ
  distance : Option ℝ
  error : Option String
  timestamp : Option String
  threshold_used : Option ℝ

/-- The failure dictionary shape shared by all three error returns of
`verify_identity` (lines 102–107, 111–116, 132–137). -/
def errorOutcome (msg : String) : VerificationOutcome :=
  { success := false
    matched := false
    confidence := 0
    distance := none
    error := some msg
    timestamp := none
    threshold_used := none }

noncomputable section

/-- Lines 92–137 of `app.py` (`FaceVerificationSystem.verify_identity`).
The outer `try/except` catches the exceptions raised by
`base64_to_image` (modelled as its `Except.error` results) and by
`compare_faces`; `detect_and_encode_face` reports failure through its
returned error string, never by raising.  `tolerance` is the value of
`self.tolerance` when `compare_faces` runs, `now` the value of
`datetime.now().isoformat()`.  When a detect error is `none` the paired
encoding is present (see `detect_and_encode_face`), so the `getD []`
defaults are never taken on reachable paths. -/
def verify_identity {B P Img Loc : Type}
    (b64decode : List Char → Except String B)
    (imageOpen : B → Except String (PILImage P))
    (convertRGB : PILImage P → PILImage P)
    (toArray : PILImage P → Img)
    (locate : Img → List Loc)
    (encodings : Img → List Loc → List Embedding)
    (tolerance : ℝ) (now : String)
    (profile_image_b64 id_image_b64 : List Char) : VerificationOutcome :=
  match base64_to_image b64decode imageOpen convertRGB toArray profile_image_b64 with
  | .error e => errorOutcome e
  | .ok profile_image =>
    match base64_to_image b64decode imageOpen convertRGB toArray id_image_b64 with
    | .error e => errorOutcome e
    | .ok id_image =>
      let pr := detect_and_encode_face locate encodings profile_image
      match pr.1.2 with
      | some profile_error => errorOutcome ("Profile image: " ++ profile_error)
      | none =>
        let ir := detect_and_encode_face locate encodings id_image
        match ir.1.2 with
        | some id_error => errorOutcome ("ID image: " ++ id_error)
        | none =>
          let comparison_result :=
            compare_faces tolerance (pr.1.1.getD []) (ir.1.1.getD [])
          { success := true
            matched := comparison_result.matched
            confidence := comparison_result.confidence
            distance := some comparison_result.distance
            error := none
            timestamp := some now
            threshold_used := some tolerance }

/-- The mutable fields of `FaceVerificationSystem` (lines 22–24). -/
structure Config where
  tolerance : ℝ
  confidence_threshold : ℝ

/-- The values set in `FaceVerificationSystem.__init__`. -/
def initialConfig : Config :=
  { tolerance := 0.6, confidence_threshold := 0.6 }

/-- The body returned by `GET /config` (lines 191–199). -/
structure ConfigResponse where
  confidence_threshold : ℝ
  tolerance : ℝ
  supported_formats : List String
  max_image_size : String

/-- Lines 191–199 of `app.py` (`get_config`). -/
def get_config (st : Config) : ConfigResponse :=
  { confidence_threshold := st.confidence_threshold
    tolerance := st.tolerance
    supported_formats := ["jpg", "jpeg", "png", "bmp"]
    max_image_size := "10MB" }

/-- The response of `POST /config`: either a 400 with an `error` body, or
a 200 success body echoing the stored values (lines 212, 219, 221–226). -/
inductive ConfigUpdateResult where
  | fail (error : String)
  | ok (tolerance confidence_threshold : ℝ)

/-- Lines 201–229 of `app.py` (`update_config`).  `tol` and `thr` are the
`tolerance` and `confidence_threshold` entries of the request JSON after
`float(...)` conversion (`none` when the key is absent).  A `return` with
status 400 exits the handler at once, so an out-of-range `tolerance`
prevents the `confidence_threshold` branch from running, while a
`tolerance` already stored is kept when `confidence_threshold` fails. -/
def update_config (st : Config) (tol thr : Option ℝ) :
    Config × ConfigUpdateResult :=
  match tol with
  | some t =>
    if 0 ≤ t ∧ t ≤ 1 then
      let st1 := { st with tolerance := t }
      match thr with
      | some c =>
        if 0 ≤ c ∧ c ≤ 1 then
          let st2 := { st1 with confidence_threshold := c }
          (st2, .ok st2.tolerance st2.confidence_threshold)
        else (st1, .fail "Confidence threshold must be between 0.0 and 1.0")
      | none => (st1, .ok st1.tolerance st1.confidence_threshold)
    else (st, .fail "Tolerance must be between 0.0 and 1.0")
  | none =>
    match thr with
    | some c =>
      if 0 ≤ c ∧ c ≤ 1 then
        let st2 := { st with confidence_threshold := c }
        (st2, .ok st2.tolerance st2.confidence_threshold)
      else (st, .fail "Confidence threshold must be between 0.0 and 1.0")
    | none => (st, .ok st.tolerance st.confidence_threshold)

/-- A body returned by the `/verify` route: either one of the plain
`{success, error}` messages (lines 159–162, 169–172) or the full outcome
dictionary from the verifier (line 179). -/
inductive VerifyResponseBody where
  | message (success : Bool) (error : String)
  | outcome (o : VerificationOutcome)

/-- An HTTP status code together with the JSON body. -/
structure ApiResponse where
  status : ℕ
  body : VerifyResponseBody

/-- Python truthiness of `data.get(key)` for an optional string payload:
`None` and the empty string are falsy. -/
def truthy : Option (List Char) → Bool
  | none => false
  | some s => !s.isEmpty

/-- Lines 151–179 of `app.py` (the `/verify` Flask route).  `data` is
`request.get_json()` (`none` when absent or falsy), carrying the values
of the `profile_image` and `id_image` keys; `verifier` is
`face_verifier.verify_identity`.  The final `except` branch (lines
181–189) is unreachable here because the verifier is a total function. -/
def verify_route
    (verifier : List Char → List Char → VerificationOutcome)
    (data : Option (Option (List Char) × Option (List Char))) : ApiResponse :=
  match data with
  | none => { status := 400, body := .message false "No JSON data provided" }
  | some (profile_image, id_image) =>
    if !truthy profile_image || !truthy id_image then
      { status := 400
        body := .message false "Both profile_image and id_image are required" }
    else
      let result := verifier (profile_image.getD []) (id_image.getD [])
      { status := if result.success then 200 else 400
        body := .outcome result }

end

/-! ### Helper lemmas -/

theorem selected_segment_of_mem {s : List Char} (h : ',' ∈ s) :
    selected_segment s = (splitComma s).getD 1 [] := by
  rw [selected_segment, if_pos (by simpa [List.contains] using h)]

theorem selected_segment_of_not_mem {s : List Char} (h : ',' ∉ s) :
    selected_segment s = s := by
  rw [selected_segment, if_neg (by simpa [List.contains] using h)]

theorem sum_zip_sq_self (e : List ℝ) :
    ((e.zip e).map fun p => (p.1 - p.2) ^ 2).sum = 0 := by
  induction e with
  | nil => simp
  | cons x rest ih => simp [ih]

theorem face_distance_self (e : Embedding) : face_distance e e = 0 := by
  rw [face_distance, sum_zip_sq_self, Real.sqrt_zero]

theorem face_distance_nonneg (e1 e2 : Embedding) : 0 ≤ face_distance e1 e2 :=
  Real.sqrt_nonneg _

theorem sum_zip_sq (a : List ℝ) : ∀ (b : List ℝ) (h : a.length = b.length),
    ((a.zip b).map fun p => (p.1 - p.2) ^ 2).sum
      = ∑ i : Fin a.length, (a.get i - b.get (Fin.cast h i)) ^ 2 := by
  induction a with
  | nil => intro b h; simp
  | cons x a ih =>
    intro b h
    cases b with
    | nil => simp at h
    | cons y b =>
      have h2 : a.length = b.length := by simpa using h
      simp only [List.zip_cons_cons, List.map_cons, List.sum_cons,
        List.length_cons]
      rw [ih b h2, Fin.sum_univ_succ]
      congr 1

/-- A list of reals of length `n`, read as a point of the Euclidean space
`ℝ^n` with its standard (L2) metric. -/
def toEuclidean (n : ℕ) (f : Fin n → ℝ) : EuclideanSpace ℝ (Fin n) := f

theorem face_distance_eq_euclidean (a b : List ℝ) (h : a.length = b.length) :
    face_distance a b
      = dist (toEuclidean a.length fun i => a.get i)
          (toEuclidean a.length fun i => b.get (Fin.cast h i)) := by
  rw [EuclideanSpace.dist_eq, face_distance, sum_zip_sq a b h]
  congr 1
  apply Finset.sum_congr rfl
  intro i _
  rw [Real.dist_eq, sq_abs]
  rfl

/-! ### Claim C1 -/

/-- Claim C1, falsified at the payload `"a,b,c"`: the code keeps the
segment between the first and the second delimiter (`split(',')[1]`,
here `"b"`), not the segment after the last delimiter (`"c"`).  The third
conjunct runs the actual decoder with transparent codec capabilities and
shows the bytes handed to the image codec come from `"b"`. -/
theorem C1_counterexample :
    selected_segment ['a', ',', 'b', ',', 'c'] = ['b']
    ∧ last_segment_spec ['a', ',', 'b', ',', 'c'] = ['c']
    ∧ base64_to_image (fun l => .ok l) (fun l => .ok ⟨"RGB", l⟩) id
        (fun im => im.content) ['a', ',', 'b', ',', 'c'] = .ok ['b']
    ∧ (['b'] : List Char) ≠ ['c'] :=
  ⟨by decide, by decide, rfl, by decide⟩

/-- Claim C1 as amended: for a payload `<meta>,<data>` with one delimiter
the code does treat the segment after the delimiter as image data, but
with two or more delimiters it keeps the SECOND comma-separated segment
(the one between the first and the second delimiter), not the one after
the last; consequently decoding a multi-delimiter payload behaves exactly
like decoding that middle segment alone. -/
theorem C1_amended {B P Img : Type}
    (b64decode : List Char → Except String B)
    (imageOpen : B → Except String (PILImage P))
    (convertRGB : PILImage P → PILImage P)
    (toArray : PILImage P → Img)
    (a b c : List Char) (ha : ',' ∉ a) (hb : ',' ∉ b) :
    selected_segment (a ++ ',' :: b) = b
    ∧ selected_segment (a ++ ',' :: b ++ ',' :: c) = b
    ∧ base64_to_image b64decode imageOpen convertRGB toArray
        (a ++ ',' :: b ++ ',' :: c)
      = base64_to_image b64decode imageOpen convertRGB toArray b := by
  have h1 : selected_segment (a ++ ',' :: b) = b := by
    rw [selected_segment_of_mem (by simp), splitComma_append b ha,
      splitComma_of_not_mem hb]
    rfl
  have h2 : selected_segment (a ++ ',' :: b ++ ',' :: c) = b := by
    rw [List.append_assoc, List.cons_append] at *
    rw [selected_segment_of_mem (by simp), splitComma_append _ ha,
      splitComma_append c hb]
    rfl
  refine ⟨h1, h2, ?_⟩
  rw [base64_to_image, base64_to_image, h2, selected_segment_of_not_mem hb]

/-- Witness for `C1_amended` at `a = "x"`, `b = "y"`, `c = "z"` with
transparent codec capabilities. -/
theorem C1_amended_witness :
    (',' ∉ ['x']) ∧ (',' ∉ ['y'])
    ∧ (selected_segment (['x'] ++ ',' :: ['y']) = ['y']
      ∧ selected_segment (['x'] ++ ',' :: ['y'] ++ ',' :: ['z']) = ['y']
      ∧ base64_to_image (fun l => .ok l) (fun l => .ok ⟨"RGB", l⟩) id
          (fun im => im.content) (['x'] ++ ',' :: ['y'] ++ ',' :: ['z'])
        = base64_to_image (fun l => .ok l) (fun l => .ok ⟨"RGB", l⟩) id
          (fun im => im.content) ['y']) :=
  ⟨by decide, by decide,
    C1_amended (fun l => .ok l) (fun l => .ok ⟨"RGB", l⟩) id
      (fun im => im.content) ['x'] ['y'] ['z'] (by decide) (by decide)⟩

/-! ### Claim C4 -/

/-- Claim C4: for every pair of embeddings and every tolerance in `[0,1]`,
the match flag of `compare_faces` is exactly `distance < tolerance`, with
strict inequality — at `distance = tolerance` the flag is `false`. -/
theorem C4_matched_strict (a b : Embedding) (tolerance : ℝ)
    (h0 : 0 ≤ tolerance) (h1 : tolerance ≤ 1) :
    ((compare_faces tolerance a b).matched = true
        ↔ face_distance a b < tolerance)
    ∧ (face_distance a b = tolerance
        → (compare_faces tolerance a b).matched = false) := by
  constructor
  · simp [compare_faces]
  · intro he
    simp [compare_faces, he]

/-- Witness for `C4_matched_strict` at `a = [1]`, `b = [0]`,
`tolerance = 1/2`. -/
theorem C4_matched_strict_witness :
    (0:ℝ) ≤ 1/2 ∧ (1/2:ℝ) ≤ 1
    ∧ (((compare_faces (1/2) [1] [0]).matched = true
          ↔ face_distance [1] [0] < 1/2)
      ∧ (face_distance [1] [0] = 1/2
          → (compare_faces (1/2) [1] [0]).matched = false)) :=
  ⟨by norm_num, by norm_num,
    C4_matched_strict [1] [0] (1/2) (by norm_num) (by norm_num)⟩

/-! ### Claim C5 -/

/-- Claim C5: `compare_faces` computes
`confidence = max(0, 1 - distance)` where the distance is the Euclidean
(L2) distance between the two embedding vectors, and whenever the
distance is non-negative the confidence lies in `[0, 1]`.  (The distance
is in fact always non-negative, as the last conjunct records.) -/
theorem C5_confidence (a b : Embedding) (tolerance : ℝ)
    (h : a.length = b.length) :
    (compare_faces tolerance a b).confidence
        = max 0 (1 - face_distance a b)
    ∧ face_distance a b
        = dist (toEuclidean a.length fun i => a.get i)
            (toEuclidean a.length fun i => b.get (Fin.cast h i))
    ∧ (0 ≤ face_distance a b →
        0 ≤ (compare_faces tolerance a b).confidence
        ∧ (compare_faces tolerance a b).confidence ≤ 1)
    ∧ 0 ≤ face_distance a b := by
  refine ⟨rfl, face_distance_eq_euclidean a b h, ?_, face_distance_nonneg a b⟩
  intro hd
  constructor
  · exact le_max_left _ _
  · apply max_le (by norm_num)
    linarith

/-- Witness for `C5_confidence` at `a = [3]`, `b = [0]`,
`tolerance = 1/2`. -/
theorem C5_confidence_witness :
    ([(3:ℝ)].length = [(0:ℝ)].length)
    ∧ ((compare_faces (1/2) [3] [0]).confidence
          = max 0 (1 - face_distance [3] [0])
      ∧ face_distance [3] [0]
          = dist (toEuclidean [(3:ℝ)].length fun i => [(3:ℝ)].get i)
              (toEuclidean [(3:ℝ)].length fun i =>
                [(0:ℝ)].get (Fin.cast rfl i))
      ∧ (0 ≤ face_distance [3] [0] →
          0 ≤ (compare_faces (1/2) [3] [0]).confidence
          ∧ (compare_faces (1/2) [3] [0]).confidence ≤ 1)
      ∧ 0 ≤ face_distance [3] [0]) :=
  ⟨rfl, C5_confidence [3] [0] (1/2) rfl⟩

/-! ### Claim C6 -/

/-- Claim C6: comparing an embedding with itself yields distance `0`,
confidence `1` and a positive match, for every tolerance `> 0`. -/
theorem C6_self_match (e : Embedding) (tolerance : ℝ) (h : 0 < tolerance) :
    (compare_faces tolerance e e).distance = 0
    ∧ (compare_faces tolerance e e).confidence = 1
    ∧ (compare_faces tolerance e e).matched = true := by
  refine ⟨face_distance_self e, ?_, ?_⟩
  · simp [compare_faces, face_distance_self e]
  · simp [compare_faces, face_distance_self e, h]

/-- Witness for `C6_self_match` at `e = [2, 5]`, `tolerance = 1`. -/
theorem C6_self_match_witness :
    (0:ℝ) < 1
    ∧ ((compare_faces 1 [2, 5] [2, 5]).distance = 0
      ∧ (compare_faces 1 [2, 5] [2, 5]).confidence = 1
      ∧ (compare_faces 1 [2, 5] [2, 5]).matched = true) :=
  ⟨by norm_num, C6_self_match [2, 5] 1 (by norm_num)⟩

/-! ### Branch lemmas for the orchestrator -/

section Orchestrator

variable {B P Img Loc : Type}
variable (b64decode : List Char → Except String B)
variable (imageOpen : B → Except String (PILImage P))
variable (convertRGB : PILImage P → PILImage P)
variable (toArray : PILImage P → Img)
variable (locate : Img → List Loc)
variable (encodings : Img → List Loc → List Embedding)
variable (tolerance : ℝ) (now : String)
variable (profile_b64 id_b64 : List Char)

theorem base64_to_image_error_of_b64 {s : List Char} {e : String}
    (h : b64decode (selected_segment s) = .error e) :
    base64_to_image b64decode imageOpen convertRGB toArray s
      = .error ("Invalid image format: " ++ e) := by
  simp only [base64_to_image, h]

theorem verify_err_profile_decode {m : String}
    (h : base64_to_image b64decode imageOpen convertRGB toArray profile_b64
          = .error m) :
    verify_identity b64decode imageOpen convertRGB toArray locate encodings
        tolerance now profile_b64 id_b64
      = errorOutcome m := by
  simp only [verify_identity, h]

theorem verify_err_id_decode {pimg : Img} {m : String}
    (hp : base64_to_image b64decode imageOpen convertRGB toArray profile_b64
          = .ok pimg)
    (h : base64_to_image b64decode imageOpen convertRGB toArray id_b64
          = .error m) :
    verify_identity b64decode imageOpen convertRGB toArray locate encodings
        tolerance now profile_b64 id_b64
      = errorOutcome m := by
  simp only [verify_identity, hp, h]

theorem verify_err_profile_detect {pimg iimg : Img} {e : String}
    (hp : base64_to_image b64decode imageOpen convertRGB toArray profile_b64
          = .ok pimg)
    (hi : base64_to_image b64decode imageOpen convertRGB toArray id_b64
          = .ok iimg)
    (hd : (detect_and_encode_face locate encodings pimg).1.2 = some e) :
    verify_identity b64decode imageOpen convertRGB toArray locate encodings
        tolerance now profile_b64 id_b64
      = errorOutcome ("Profile image: " ++ e) := by
  simp only [verify_identity, hp, hi, hd]

theorem verify_err_id_detect {pimg iimg : Img} {e : String}
    (hp : base64_to_image b64decode imageOpen convertRGB toArray profile_b64
          = .ok pimg)
    (hi : base64_to_image b64decode imageOpen convertRGB toArray id_b64
          = .ok iimg)
    (hdp : (detect_and_encode_face locate encodings pimg).1.2 = none)
    (hdi : (detect_and_encode_face locate encodings iimg).1.2 = some e) :
    verify_identity b64decode imageOpen convertRGB toArray locate encodings
        tolerance now profile_b64 id_b64
      = errorOutcome ("ID image: " ++ e) := by
  simp only [verify_identity, hp, hi, hdp, hdi]

theorem verify_identity_ok {pimg iimg : Img}
    (hp : base64_to_image b64decode imageOpen convertRGB toArray profile_b64
          = .ok pimg)
    (hi : base64_to_image b64decode imageOpen convertRGB toArray id_b64
          = .ok iimg)
    (hdp : (detect_and_encode_face locate encodings pimg).1.2 = none)
    (hdi : (detect_and_encode_face locate encodings iimg).1.2 = none) :
    verify_identity b64decode imageOpen convertRGB toArray locate encodings
        tolerance now profile_b64 id_b64
      = { success := true
          matched := (compare_faces tolerance
            ((detect_and_encode_face locate encodings pimg).1.1.getD [])
            ((detect_and_encode_face locate encodings iimg).1.1.getD [])).matched
          confidence := (compare_faces tolerance
            ((detect_and_encode_face locate encodings pimg).1.1.getD [])
            ((detect_and_encode_face locate encodings iimg).1.1.getD [])).confidence
          distance := some (compare_faces tolerance
            ((detect_and_encode_face locate encodings pimg).1.1.getD [])
            ((detect_and_encode_face locate encodings iimg).1.1.getD [])).distance
          error := none
          timestamp := some now
          threshold_used := some tolerance } := by
  simp only [verify_identity, hp, hi, hdp, hdi]

/-! ### Claim C2 -/

/-- Claim C2 as amended: the error reported by `verify_identity` is that
of the first failing stage in the order the CODE declares:
profile-decode, id-decode, profile-detect, id-detect (the code decodes
BOTH images before any face detection).  A profile decode failure still
preempts all id-image processing (conjunct 1 holds for every id payload),
but when the profile image decodes and has no face while the id image
fails to decode, the reported error is the id-decode failure
(conjunct 2), not the profile-detect failure. -/
theorem C2_amended :
    (∀ m, base64_to_image b64decode imageOpen convertRGB toArray profile_b64
          = .error m →
      ∀ id2, verify_identity b64decode imageOpen convertRGB toArray locate
          encodings tolerance now profile_b64 id2 = errorOutcome m)
    ∧ (∀ pimg m e,
        base64_to_image b64decode imageOpen convertRGB toArray profile_b64
          = .ok pimg →
        base64_to_image b64decode imageOpen convertRGB toArray id_b64
          = .error m →
        (detect_and_encode_face locate encodings pimg).1.2 = some e →
        verify_identity b64decode imageOpen convertRGB toArray locate
          encodings tolerance now profile_b64 id_b64 = errorOutcome m)
    ∧ (∀ pimg iimg e,
        base64_to_image b64decode imageOpen convertRGB toArray profile_b64
          = .ok pimg →
        base64_to_image b64decode imageOpen convertRGB toArray id_b64
          = .ok iimg →
        (detect_and_encode_face locate encodings pimg).1.2 = some e →
        verify_identity b64decode imageOpen convertRGB toArray locate
          encodings tolerance now profile_b64 id_b64
          = errorOutcome ("Profile image: " ++ e))
    ∧ (∀ pimg iimg e,
        base64_to_image b64decode imageOpen convertRGB toArray profile_b64
          = .ok pimg →
        base64_to_image b64decode imageOpen convertRGB toArray id_b64
          = .ok iimg →
        (detect_and_encode_face locate encodings pimg).1.2 = none →
        (detect_and_encode_face locate encodings iimg).1.2 = some e →
        verify_identity b64decode imageOpen convertRGB toArray locate
          encodings tolerance now profile_b64 id_b64
          = errorOutcome ("ID image: " ++ e)) :=
  ⟨fun m h id2 => verify_err_profile_decode b64decode imageOpen convertRGB
      toArray locate encodings tolerance now profile_b64 id2 h,
   fun _pimg m _e hp hi _hd => verify_err_id_decode b64decode imageOpen
      convertRGB toArray locate encodings tolerance now profile_b64 id_b64
      hp hi,
   fun _pimg _iimg e hp hi hd => verify_err_profile_detect b64decode
      imageOpen convertRGB toArray locate encodings tolerance now
      profile_b64 id_b64 hp hi hd,
   fun _pimg _iimg e hp hi hdp hdi => verify_err_id_detect b64decode
      imageOpen convertRGB toArray locate encodings tolerance now
      profile_b64 id_b64 hp hi hdp hdi⟩

/-! ### Claim C3 -/

/-- Claim C3 as amended: detect-stage failures are reported with the
`"Profile image: ..."` / `"ID image: ..."` prefix, but DECODE failures of
either image are reported as `"Invalid image format: <cause>"` with no
indication of which image caused them; every such outcome has
`success = false`. -/
theorem C3_amended :
    (∀ cause, b64decode (selected_segment profile_b64) = .error cause →
      verify_identity b64decode imageOpen convertRGB toArray locate
          encodings tolerance now profile_b64 id_b64
        = errorOutcome ("Invalid image format: " ++ cause))
    ∧ (∀ pimg cause,
        base64_to_image b64decode imageOpen convertRGB toArray profile_b64
          = .ok pimg →
        b64decode (selected_segment id_b64) = .error cause →
        verify_identity b64decode imageOpen convertRGB toArray locate
            encodings tolerance now profile_b64 id_b64
          = errorOutcome ("Invalid image format: " ++ cause))
    ∧ (∀ pimg iimg e,
        base64_to_image b64decode imageOpen convertRGB toArray profile_b64
          = .ok pimg →
        base64_to_image b64decode imageOpen convertRGB toArray id_b64
          = .ok iimg →
        (detect_and_encode_face locate encodings pimg).1.2 = some e →
        verify_identity b64decode imageOpen convertRGB toArray locate
            encodings tolerance now profile_b64 id_b64
          = errorOutcome ("Profile image: " ++ e))
    ∧ (∀ pimg iimg e,
        base64_to_image b64decode imageOpen convertRGB toArray profile_b64
          = .ok pimg →
        base64_to_image b64decode imageOpen convertRGB toArray id_b64
          = .ok iimg →
        (detect_and_encode_face locate encodings pimg).1.2 = none →
        (detect_and_encode_face locate encodings iimg).1.2 = some e →
        verify_identity b64decode imageOpen convertRGB toArray locate
            encodings tolerance now profile_b64 id_b64
          = errorOutcome ("ID image: " ++ e))
    ∧ (∀ m, (errorOutcome m).success = false) :=
  ⟨fun cause h => verify_err_profile_decode b64decode imageOpen convertRGB
      toArray locate encodings tolerance now profile_b64 id_b64
      (base64_to_image_error_of_b64 b64decode imageOpen convertRGB toArray h),
   fun _pimg cause hp h => verify_err_id_decode b64decode imageOpen
      convertRGB toArray locate encodings tolerance now profile_b64 id_b64
      hp
      (base64_to_image_error_of_b64 b64decode imageOpen convertRGB toArray h),
   fun _pimg _iimg e hp hi hd => verify_err_profile_detect b64decode
      imageOpen convertRGB toArray locate encodings tolerance now
      profile_b64 id_b64 hp hi hd,
   fun _pimg _iimg e hp hi hdp hdi => verify_err_id_detect b64decode
      imageOpen convertRGB toArray locate encodings tolerance now
      profile_b64 id_b64 hp hi hdp hdi,
   fun _m => rfl⟩

/-! ### Claim C9 -/

/-- Claim C9: `verify_identity` is a total function (no exception escapes
to the caller: the raising steps are modelled by `Except` results and
every one of them is matched), and every outcome either is a success with
no error, or is exactly the caught-failure shape `errorOutcome m`, i.e.
`success = false`, `match = false`, `confidence = 0`, `error = <m>` (the
first conjunct spells that shape out). -/
theorem C9_outcome_shape :
    (∀ m, (errorOutcome m).success = false ∧ (errorOutcome m).matched = false
      ∧ (errorOutcome m).confidence = 0 ∧ (errorOutcome m).error = some m)
    ∧ (((verify_identity b64decode imageOpen convertRGB toArray locate
          encodings tolerance now profile_b64 id_b64).success = true
        ∧ (verify_identity b64decode imageOpen convertRGB toArray locate
          encodings tolerance now profile_b64 id_b64).error = none)
      ∨ ∃ m, verify_identity b64decode imageOpen convertRGB toArray locate
          encodings tolerance now profile_b64 id_b64 = errorOutcome m) := by
  refine ⟨fun m => ⟨rfl, rfl, rfl, rfl⟩, ?_⟩
  rcases hbp : base64_to_image b64decode imageOpen convertRGB toArray
      profile_b64 with m | pimg
  · exact Or.inr ⟨m, verify_err_profile_decode b64decode imageOpen convertRGB
      toArray locate encodings tolerance now profile_b64 id_b64 hbp⟩
  rcases hbi : base64_to_image b64decode imageOpen convertRGB toArray
      id_b64 with m | iimg
  · exact Or.inr ⟨m, verify_err_id_decode b64decode imageOpen convertRGB
      toArray locate encodings tolerance now profile_b64 id_b64 hbp hbi⟩
  rcases hdp : (detect_and_encode_face locate encodings pimg).1.2 with _ | e
  · rcases hdi : (detect_and_encode_face locate encodings iimg).1.2 with _ | e
    · refine Or.inl ?_
      rw [verify_identity_ok b64decode imageOpen convertRGB toArray locate
        encodings tolerance now profile_b64 id_b64 hbp hbi hdp hdi]
      exact ⟨rfl, rfl⟩
    · exact Or.inr ⟨_, verify_err_id_detect b64decode imageOpen convertRGB
        toArray locate encodings tolerance now profile_b64 id_b64 hbp hbi
        hdp hdi⟩
  · exact Or.inr ⟨_, verify_err_profile_detect b64decode imageOpen convertRGB
      toArray locate encodings tolerance now profile_b64 id_b64 hbp hbi hdp⟩

end Orchestrator

/-! ### Concrete capability instances used by counterexamples and
witnesses.  Pixel buffers, face regions and decoded byte payloads are all
instantiated at `ℕ`. -/

/-- `PIL.Image.open` stand-in that always succeeds with an RGB image. -/
def natOpen : ℕ → Except String (PILImage ℕ) := fun n => .ok ⟨"RGB", n⟩

/-- `np.array` stand-in. -/
def natArray : PILImage ℕ → ℕ := fun im => im.content

/-- `base64.b64decode` stand-in for the C2 scenario: the profile payload
`"p"` decodes, the id payload fails with cause `"bad id"`. -/
def c2decode : List Char → Except String ℕ :=
  fun l => if l = ['p'] then .ok 0 else .error "bad id"

/-- Face locator stand-in that finds no face in any image. -/
def noFaceLocate : ℕ → List ℕ := fun _ => []

/-- Face encoder stand-in that produces no encodings. -/
def noEncodings : ℕ → List ℕ → List Embedding := fun _ _ => []

noncomputable section

/-- The outcome of `verify_identity` in the C2 scenario: profile decodes
but contains no face, id fails to decode. -/
def c2Outcome : VerificationOutcome :=
  verify_identity c2decode natOpen id natArray noFaceLocate noEncodings
    0.6 "t" ['p'] ['q']

end

/-- Claim C2 counterexample.  In the scenario the claim singles out —
profile decodes (conjunct 1) but contains no face (conjunct 3), id fails
to decode (conjunct 2) — the reported error is the id-decode failure
`"Invalid image format: bad id"` (conjunct 4), not the profile-detect
failure `"Profile image: No face detected in the image"` the claim
predicts (conjunct 5): the code decodes the id image before detecting
faces in the profile image. -/
theorem C2_counterexample :
    base64_to_image c2decode natOpen id natArray ['p'] = .ok 0
    ∧ base64_to_image c2decode natOpen id natArray ['q']
        = .error "Invalid image format: bad id"
    ∧ (detect_and_encode_face noFaceLocate noEncodings 0).1.2
        = some "No face detected in the image"
    ∧ c2Outcome.error = some "Invalid image format: bad id"
    ∧ c2Outcome.error ≠ some "Profile image: No face detected in the image" := by
  refine ⟨rfl, rfl, rfl, rfl, ?_⟩
  intro h
  rw [show c2Outcome.error = some "Invalid image format: bad id" from rfl] at h
  exact absurd h (by decide)

/-- `base64.b64decode` stand-in for the C3 scenario: every payload fails
with cause `"bad profile"`. -/
def c3decode : List Char → Except String ℕ := fun _ => .error "bad profile"

/-- Witness for `C2_amended`, instantiating its first conjunct (profile
decode failure preempts everything) in the C3 concrete scenario. -/
theorem C2_amended_witness :
    base64_to_image c3decode natOpen id natArray ['p']
        = .error "Invalid image format: bad profile"
    ∧ verify_identity c3decode natOpen id natArray noFaceLocate noEncodings
        0.6 "t" ['p'] ['q'] = errorOutcome "Invalid image format: bad profile" :=
  ⟨rfl,
    (C2_amended c3decode natOpen id natArray noFaceLocate noEncodings
        0.6 "t" ['p'] ['q']).1 "Invalid image format: bad profile" rfl ['q']⟩

noncomputable section

/-- The outcome of `verify_identity` in the C3 scenario: the profile
payload is unreadable. -/
def c3Outcome : VerificationOutcome :=
  verify_identity c3decode natOpen id natArray noFaceLocate noEncodings
    0.6 "t" ['p'] ['q']

end

/-- Claim C3 counterexample: an unreadable profile payload yields the
error `"Invalid image format: bad profile"`, which carries neither a
`"Profile image: "` nor an `"ID image: "` prefix — contradicting the
claim that every pipeline-stage failure (decode failures included) is
prefixed with the image that caused it, and in particular that an
unreadable profile payload yields an error referencing "Profile image". -/
theorem C3_counterexample :
    c3Outcome.success = false
    ∧ c3Outcome.error = some "Invalid image format: bad profile"
    ∧ (¬ ∃ c, c3Outcome.error = some ("Profile image: " ++ c))
    ∧ (¬ ∃ c, c3Outcome.error = some ("ID image: " ++ c)) := by
  refine ⟨rfl, rfl, ?_, ?_⟩
  · rintro ⟨c, hc⟩
    rw [show c3Outcome.error = some "Invalid image format: bad profile"
      from rfl] at hc
    have h2 := congrArg String.data (Option.some.inj hc)
    rw [String.data_append] at h2
    simp at h2
  · rintro ⟨c, hc⟩
    rw [show c3Outcome.error = some "Invalid image format: bad profile"
      from rfl] at hc
    have h2 := congrArg String.data (Option.some.inj hc)
    rw [String.data_append] at h2
    simp at h2

/-- Witness for `C3_amended`, instantiating its first conjunct on the C3
concrete scenario. -/
theorem C3_amended_witness :
    c3decode (selected_segment ['p']) = .error "bad profile"
    ∧ verify_identity c3decode natOpen id natArray noFaceLocate noEncodings
        0.6 "t" ['p'] ['q']
      = errorOutcome ("Invalid image format: " ++ "bad profile") :=
  ⟨rfl,
    (C3_amended c3decode natOpen id natArray noFaceLocate noEncodings
        0.6 "t" ['p'] ['q']).1 "bad profile" rfl⟩

/-! ### Claim C7 -/

/-- Claim C7: each provided configuration field is independently
range-checked to `[0, 1]`.  An out-of-range `tolerance` fails with a
validation error leaving the store untouched (conjunct 1); an
out-of-range `confidence_threshold` fails with a validation error but
does NOT roll back a `tolerance` already validated and applied in the
same call, and leaves the stored threshold unchanged (conjunct 2);
`set({tolerance: 1.5})` leaves the stored tolerance unchanged and reports
a validation failure (conjuncts 3 and 4); after `set({tolerance: 0.3})` a
`get()` returns tolerance `0.3` (conjunct 5). -/
theorem C7_update_config (st : Config) (t c : ℝ) :
    (¬ (0 ≤ t ∧ t ≤ 1) →
      update_config st (some t) none
        = (st, .fail "Tolerance must be between 0.0 and 1.0"))
    ∧ ((0 ≤ t ∧ t ≤ 1) → ¬ (0 ≤ c ∧ c ≤ 1) →
      update_config st (some t) (some c)
        = ({ st with tolerance := t },
           .fail "Confidence threshold must be between 0.0 and 1.0"))
    ∧ (update_config st (some 1.5) none).1.tolerance = st.tolerance
    ∧ (update_config st (some 1.5) none).2
        = .fail "Tolerance must be between 0.0 and 1.0"
    ∧ (get_config (update_config st (some 0.3) none).1).tolerance = 0.3 := by
  refine ⟨?_, ?_, ?_, ?_, ?_⟩
  · intro h
    simp only [update_config]
    rw [if_neg h]
  · intro ht hc
    simp only [update_config]
    rw [if_pos ht, if_neg hc]
  · simp only [update_config]
    rw [if_neg (by norm_num)]
  · simp only [update_config]
    rw [if_neg (by norm_num)]
  · simp only [update_config, get_config]
    rw [if_pos (by norm_num)]

/-- Witness for `C7_update_config` at the default configuration,
`t = 1.5`, `c = 1.5`, exercising conjunct 1. -/
theorem C7_update_config_witness :
    (¬ ((0:ℝ) ≤ 1.5 ∧ (1.5:ℝ) ≤ 1))
    ∧ update_config initialConfig (some 1.5) none
        = (initialConfig, .fail "Tolerance must be between 0.0 and 1.0") :=
  ⟨by norm_num,
    (C7_update_config initialConfig 1.5 1.5).1 (by norm_num)⟩

/-! ### Claim C8 -/

section MultiFace

variable {B P Img Loc : Type}
variable (b64decode : List Char → Except String B)
variable (imageOpen : B → Except String (PILImage P))
variable (convertRGB : PILImage P → PILImage P)
variable (toArray : PILImage P → Img)
variable (locate : Img → List Loc)
variable (encodings : Img → List Loc → List Embedding)
variable (tolerance : ℝ) (now : String)

theorem detect_first_encoding (encOf : Img → Loc → Embedding) (img : Img)
    (r : Loc) (rest : List Loc)
    (hl : locate img = r :: rest)
    (hmap : encodings img (locate img) = (locate img).map (encOf img)) :
    (detect_and_encode_face locate encodings img).1
      = (some (encOf img r), none) := by
  rw [hl] at hmap
  simp only [detect_and_encode_face, hl, hmap, List.map_cons,
    List.isEmpty_cons]
  rfl

/-- Claim C8: when the locator reports more than one face region,
`detect_and_encode_face` raises no error, selects the encoding of the
FIRST region in source order, and emits exactly the multiple-faces
warning (conjunct 1).  At the `verify_identity` level, when both images
decode and both have (possibly multiple) faces, the orchestrator
succeeds and compares exactly the first-region encodings of the two
images (conjunct 2).  The whole pipeline is a pure function of its
inputs and capabilities, so repeated calls with identical input and
capability behaviour give the same outcome (conjunct 3). -/
theorem C8_first_face (encOf : Img → Loc → Embedding)
    (pimg iimg : Img) (rp ri : Loc) (restp resti : List Loc)
    (profile_b64 id_b64 : List Char)
    (hmap : ∀ im, encodings im (locate im) = (locate im).map (encOf im))
    (hlp : locate pimg = rp :: restp) (hmultip : restp ≠ [])
    (hli : locate iimg = ri :: resti)
    (hp : base64_to_image b64decode imageOpen convertRGB toArray profile_b64
          = .ok pimg)
    (hi : base64_to_image b64decode imageOpen convertRGB toArray id_b64
          = .ok iimg) :
    detect_and_encode_face locate encodings pimg
      = ((some (encOf pimg rp), none),
         ["Multiple faces detected, using the first one"])
    ∧ verify_identity b64decode imageOpen convertRGB toArray locate encodings
        tolerance now profile_b64 id_b64
      = { success := true
          matched := (compare_faces tolerance (encOf pimg rp)
            (encOf iimg ri)).matched
          confidence := (compare_faces tolerance (encOf pimg rp)
            (encOf iimg ri)).confidence
          distance := some (compare_faces tolerance (encOf pimg rp)
            (encOf iimg ri)).distance
          error := none
          timestamp := some now
          threshold_used := some tolerance }
    ∧ verify_identity b64decode imageOpen convertRGB toArray locate encodings
        tolerance now profile_b64 id_b64
      = verify_identity b64decode imageOpen convertRGB toArray locate
          encodings tolerance now profile_b64 id_b64 := by
  have hdp := detect_first_encoding locate encodings encOf pimg rp restp hlp
    (hmap pimg)
  have hdi := detect_first_encoding locate encodings encOf iimg ri resti hli
    (hmap iimg)
  have hwarn : detect_and_encode_face locate encodings pimg
      = ((some (encOf pimg rp), none),
         ["Multiple faces detected, using the first one"]) := by
    have hm := hmap pimg
    rw [hlp] at hm
    have hlen : 1 < (rp :: restp).length := by
      cases restp with
      | nil => exact absurd rfl hmultip
      | cons a l => simp only [List.length_cons]; omega
    simp only [detect_and_encode_face, hlp, hm, List.map_cons,
      List.isEmpty_cons, if_pos hlen]
    rfl
  refine ⟨hwarn, ?_, rfl⟩
  rw [verify_identity_ok b64decode imageOpen convertRGB toArray locate
    encodings tolerance now profile_b64 id_b64 hp hi
    (by rw [hdp]) (by rw [hdi]), hdp, hdi]
  rfl

end MultiFace

/-- Face locator stand-in for the C8 witness: two face regions, `7`
first, in every image. -/
def c8locate : ℕ → List ℕ := fun _ => [7, 8]

noncomputable section

/-- Per-region face encoder stand-in for the C8 witness. -/
def c8encOf : ℕ → ℕ → Embedding := fun _ l => [(l : ℝ)]

/-- `face_recognition.face_encodings` stand-in for the C8 witness: one
encoding per requested region, in order. -/
def c8encodings : ℕ → List ℕ → List Embedding :=
  fun im locs => locs.map (c8encOf im)

end

/-- `base64.b64decode` stand-in for the C8 witness: every payload decodes
to the pixel value `0`. -/
def c8decode : List Char → Except String ℕ := fun _ => .ok 0

/-- Witness for `C8_first_face`: both payloads decode to an image in
which the locator reports the two regions `[7, 8]`; the detector picks
region `7` and warns. -/
theorem C8_first_face_witness :
    (∀ im, c8encodings im (c8locate im) = (c8locate im).map (c8encOf im))
    ∧ c8locate 0 = 7 :: [8]
    ∧ ([8] : List ℕ) ≠ []
    ∧ base64_to_image c8decode natOpen id natArray ['p'] = .ok 0
    ∧ (detect_and_encode_face c8locate c8encodings 0
        = ((some (c8encOf 0 7), none),
           ["Multiple faces detected, using the first one"])
      ∧ verify_identity c8decode natOpen id natArray c8locate c8encodings
          0.6 "t" ['p'] ['q']
        = { success := true
            matched := (compare_faces 0.6 (c8encOf 0 7) (c8encOf 0 7)).matched
            confidence := (compare_faces 0.6 (c8encOf 0 7)
              (c8encOf 0 7)).confidence
            distance := some (compare_faces 0.6 (c8encOf 0 7)
              (c8encOf 0 7)).distance
            error := none
            timestamp := some "t"
            threshold_used := some 0.6 }
      ∧ verify_identity c8decode natOpen id natArray c8locate c8encodings
          0.6 "t" ['p'] ['q']
        = verify_identity c8decode natOpen id natArray c8locate c8encodings
            0.6 "t" ['p'] ['q']) :=
  ⟨fun _ => rfl, rfl, by decide, rfl,
    C8_first_face c8decode natOpen id natArray c8locate c8encodings 0.6 "t"
      c8encOf 0 0 7 7 [8] [8] ['p'] ['q'] (fun _ => rfl) rfl (by decide) rfl
      rfl rfl⟩

/-! ### Claim C10 -/

/-- Claim C10: a `/verify` request whose JSON body has both keys but
where either value is falsy (the empty string, or any missing/`None`
value) is answered with the 400 response
`{success:false, error:"Both profile_image and id_image are required"}`
(conjunct 1), exactly as if the field were missing (conjunct 3), and the
verification pipeline is never invoked: the response is the same for
every verifier (conjunct 2). -/
theorem C10_falsy_fields
    (f g : List Char → List Char → VerificationOutcome)
    (pv iv : Option (List Char))
    (h : truthy pv = false ∨ truthy iv = false) :
    verify_route f (some (pv, iv))
      = { status := 400
          body := .message false "Both profile_image and id_image are required" }
    ∧ verify_route f (some (pv, iv)) = verify_route g (some (pv, iv))
    ∧ verify_route f (some (pv, iv)) = verify_route f (some (none, none)) := by
  have hcond : (!truthy pv || !truthy iv) = true := by
    rcases h with h | h <;> simp [h]
  refine ⟨?_, ?_, ?_⟩ <;> simp only [verify_route] <;> rw [hcond] <;>
    simp [truthy]

/-- Witness for `C10_falsy_fields`: both keys present, `profile_image`
the empty string, `id_image` non-empty. -/
theorem C10_falsy_fields_witness :
    (truthy (some []) = false ∨ truthy (some ['a']) = false)
    ∧ (verify_route (fun _ _ => errorOutcome "x")
          (some (some [], some ['a']))
        = { status := 400
            body := .message false
              "Both profile_image and id_image are required" }
      ∧ verify_route (fun _ _ => errorOutcome "x")
          (some (some [], some ['a']))
        = verify_route (fun _ _ => errorOutcome "y")
          (some (some [], some ['a']))
      ∧ verify_route (fun _ _ => errorOutcome "x")
          (some (some [], some ['a']))
        = verify_route (fun _ _ => errorOutcome "x") (some (none, none))) :=
  ⟨Or.inl rfl,
    C10_falsy_fields (fun _ _ => errorOutcome "x")
      (fun _ _ => errorOutcome "y") (some []) (some ['a']) (Or.inl rfl)⟩

end FaceVerification
